import Mathlib

/-!
Verification of the my-plants-AI RAG and conversation-orchestration core.

This file gives a shallow embedding of the Python source under `app/` and
proves properties of the retrieval fusion engine (`app/core/rag/query_engine.py`),
the RAG facade (`app/core/rag/rag_interface.py`), the multi-index manager
(`app/core/rag/multi_index_manager.py`), the LangGraph agent
(`app/core/graph/graph.py`), the knowledge-base tool
(`app/core/tools/knowledge_base.py`) and the documents upload route
(`app/api/v1/documents.py`).

External collaborators (the llama_index library, the LLM, the reranker and
the retriever backends) are represented as explicit parameters: each query
or call outcome is an `Except` value standing for the awaited result of the
external call (`.error` models a raised Python exception).
-/

namespace MyPlants

/-- A retrieved chunk (llama_index node) as the repository uses it: an id
(`node.id_`), the owning document id (`ref_doc_id`), the optional
`file_name` metadata entry, and the node text. -/
structure Node where
  id_ : String
  refDocId : String
  fileName : Option String
  text : String
deriving DecidableEq, Repr

/-- A raised Python exception, as observed by the embedded code. -/
inductive PyErr where
  /-- a generic `Exception` carrying a message -/
  | exn : String → PyErr
  /-- `AttributeError` from calling `.get` on `None` -/
  | attributeNoneGet : PyErr
  /-- `ValueError` carrying a message -/
  | valueError : String → PyErr
  /-- `TypeError` carrying a message -/
  | typeError : String → PyErr
deriving DecidableEq, Repr

/-- Result of an awaited Python call: either a value or a raised exception. -/
abbrev PyResult (α : Type) := Except PyErr α

instance {ε α : Type} [DecidableEq ε] [DecidableEq α] :
    DecidableEq (Except ε α) := fun a b =>
  match a, b with
  | .ok x, .ok y =>
    if h : x = y then .isTrue (by rw [h]) else .isFalse (by simp [h])
  | .ok _, .error _ => .isFalse (by simp)
  | .error _, .ok _ => .isFalse (by simp)
  | .error e, .error f =>
    if h : e = f then .isTrue (by rw [h]) else .isFalse (by simp [h])

/-- One insertion step of a Python dict displayed as an association list:
assigning an existing key replaces its value in place (the entry keeps its
position), a new key is appended at the end.  This is exactly the insertion
behaviour underlying the comprehension
`{node.id_: node for node in all_nodes}` at `query_engine.py:69`. -/
def dictInsert (d : List (String × Node)) (k : String) (v : Node) :
    List (String × Node) :=
  if d.any (fun p => p.1 == k) then
    d.map (fun p => if p.1 == k then (k, v) else p)
  else
    d ++ [(k, v)]

/-- The Python dict comprehension `{node.id_: node for node in l}`:
entries in first-seen key order, each key holding the value assigned last. -/
def pyDictOfNodes (l : List Node) : List (String × Node) :=
  l.foldl (fun d n => dictInsert d n.id_ n) []

/-- Lookup in the association-list dict: the value of the first entry with
the given key. -/
def lookupDict : List (String × Node) → String → Option Node
  | [], _ => none
  | p :: rest, k => if p.1 == k then some p.2 else lookupDict rest k

/-- Embedding of `list(unique_nodes.values())` for the dict built from the concatenation
`vector_nodes + keyword_nodes + kg_nodes` (`query_engine.py:67-70`). -/
def combinedNodes (vns kns gns : List Node) : List Node :=
  (pyDictOfNodes (vns ++ kns ++ gns)).map (fun p => p.2)

/-- Embedding of `node.metadata.get('file_name', 'N/A')` (`query_engine.py:93`). -/
def sourceName (n : Node) : String := n.fileName.getD "N/A"

/-- Embedding of `list(set(node.metadata.get('file_name', 'N/A') for node in ns))`
(`query_engine.py:92-94`); `set` order is not observable, so the claims
below use only membership in this list. -/
def sourceFiles (ns : List Node) : List String :=
  (ns.map sourceName).dedup

/-- The llama_index `Response` dataclass as the repository uses it:
`response` text, `source_nodes`, and the `metadata` dict.  In llama_index,
`metadata: Optional[Dict[str, Any]] = None`, so a `Response` built without a
metadata argument carries `none` here; the only key this code ever stores is
`"sources"`, whose value is a list of file names. -/
structure Response where
  response : String
  source_nodes : List Node
  metadata : Option (List (String × List String))
deriving DecidableEq, Repr

/-- External collaborators of `RAGQueryEngine.aquery`: the three retrievers,
the sentence-transformer reranker and the LLM response synthesizer.  Each
returns the awaited outcome of the external call on the given query. -/
structure RagEnv where
  vectorRetrieve : String → PyResult (List Node)
  keywordRetrieve : String → PyResult (List Node)
  kgRetrieve : String → PyResult (List Node)
  rerank : String → List Node → PyResult (List Node)
  synthesize : String → List Node → PyResult String

/-- Outcome of `RAGQueryEngine.aquery` together with how many times the
reranker and the synthesizer were invoked during the call. -/
structure AqueryOut where
  result : PyResult Response
  rerankCalls : Nat
  synthCalls : Nat
deriving DecidableEq, Repr

/-- The canned answer of `query_engine.py:78`. -/
def cannedAnswer : String := "Could not retrieve any information."

/-- Embedding of `metadata.get(k, dflt)` on the (non-`None`) metadata dict. -/
def metaGet (md : List (String × List String)) (k : String)
    (dflt : List String) : List String :=
  match md.find? (fun p => p.1 == k) with
  | some p => p.2
  | none => dflt

namespace RAGQueryEngine

/-- Embedding of `RAGQueryEngine.aquery` (`query_engine.py:47-97`).  The three retrievers
are awaited in order with no exception handling, so a raised exception
propagates.  The deduplicated union is `combinedNodes`; when it is empty the
method returns `Response(response="Could not retrieve any information.")`
(whose metadata is `None`) without touching the reranker or the synthesizer.
Otherwise the union is reranked; after a successful rerank, the debug log at
`query_engine.py:84` evaluates `" ".join(node.score for node in
reranked_nodes)` — joining float scores — which raises `TypeError` whenever
the reranked list is non-empty, so the synthesizer is reached only when the
reranker returned no nodes.  On that path the synthesizer's response carries
the (empty) reranked list as `source_nodes` and a metadata dict, and the
`metadata['sources']` assignment of `query_engine.py:90-95` is guarded by
`source_nodes` being non-empty, so it never fires. -/
def aquery (env : RagEnv) (q : String) : AqueryOut :=
  match env.vectorRetrieve q with
  | .error e => ⟨.error e, 0, 0⟩
  | .ok vector_nodes =>
    match env.keywordRetrieve q with
    | .error e => ⟨.error e, 0, 0⟩
    | .ok keyword_nodes =>
      match env.kgRetrieve q with
      | .error e => ⟨.error e, 0, 0⟩
      | .ok kg_nodes =>
        let combined_nodes := combinedNodes vector_nodes keyword_nodes kg_nodes
        if combined_nodes.isEmpty then
          ⟨.ok ⟨cannedAnswer, [], none⟩, 0, 0⟩
        else
          match env.rerank q combined_nodes with
          | .error e => ⟨.error e, 1, 0⟩
          | .ok reranked_nodes =>
            if reranked_nodes.isEmpty then
              match env.synthesize q reranked_nodes with
              | .error e => ⟨.error e, 1, 1⟩
              | .ok answer =>
                let resp : Response := ⟨answer, reranked_nodes, some []⟩
                if resp.source_nodes.isEmpty then
                  ⟨.ok resp, 1, 1⟩
                else
                  ⟨.ok { resp with
                          metadata :=
                            some [("sources", sourceFiles resp.source_nodes)] },
                    1, 1⟩
            else
              ⟨.error (PyErr.typeError
                  "sequence item 0: expected str instance, float found"),
                1, 0⟩

end RAGQueryEngine

/-- The `RAGResponse` pydantic model of `rag_interface.py:15-17`. -/
structure RAGResponse where
  answer : String
  sources : List String
deriving DecidableEq, Repr

namespace RagInterface

/-- Embedding of `RagInterface.search` (`rag_interface.py:120-137`): awaits
`query_engine.aquery` and builds
`RAGResponse(answer=str(response), sources=response.metadata.get("sources", []))`.
When the response's metadata is `None` (the canned empty-union response),
evaluating `.get` on `None` raises `AttributeError`, which propagates. -/
def search (env : RagEnv) (q : String) : PyResult RAGResponse :=
  match (RAGQueryEngine.aquery env q).result with
  | .error e => .error e
  | .ok resp =>
    match resp.metadata with
    | none => .error .attributeNoneGet
    | some md => .ok ⟨resp.response, metaGet md "sources" []⟩

end RagInterface

/-- The node contents of the three index stores managed by
`MultiIndexManager` (`multi_index_manager.py`): the semantic (vector) store,
the keyword store and the knowledge-graph store. -/
structure IndexState where
  vector : List Node
  keyword : List Node
  kg : List Node
deriving DecidableEq, Repr

/-- Outcomes of the awaited external index-store operations performed by
`MultiIndexManager.delete_document`: `adelete_ref_doc` on the vector index,
`adelete_ref_doc` on the keyword index, and the keyword storage persist
(each may raise). -/
structure DeleteOutcomes where
  vectorDelete : PyResult Unit
  keywordDelete : PyResult Unit
  keywordPersist : PyResult Unit
deriving DecidableEq, Repr

/-- All three external deletion operations succeed. -/
def DeleteOutcomes.allOk : DeleteOutcomes := ⟨.ok (), .ok (), .ok ()⟩

namespace MultiIndexManager

/-- Embedding of `MultiIndexManager.delete_document` (`multi_index_manager.py:123-143`):
deletes the document's nodes from the vector index, then from the keyword
index, then persists the keyword storage.  Deletion from the knowledge-graph
index is commented out in the source, so the kg store is left untouched.
The first exception aborts the remaining steps; steps already performed keep
their effect. -/
def delete_document (s : IndexState) (docId : String) (o : DeleteOutcomes) :
    IndexState × PyResult Unit :=
  match o.vectorDelete with
  | .error e => (s, .error e)
  | .ok _ =>
    let s1 : IndexState :=
      { s with vector := s.vector.filter (fun n => n.refDocId != docId) }
    match o.keywordDelete with
    | .error e => (s1, .error e)
    | .ok _ =>
      let s2 : IndexState :=
        { s1 with keyword := s1.keyword.filter (fun n => n.refDocId != docId) }
      match o.keywordPersist with
      | .error e => (s2, .error e)
      | .ok _ => (s2, .ok ())

end MultiIndexManager

namespace RagInterface

/-- Embedding of `RagInterface.delete_document` (`rag_interface.py:81-99`): awaits
`index_manager.delete_document` inside `try`, returns `True` on success and
`False` on any raised exception (the exception is logged, never re-raised);
whatever deletions already happened are left in place. -/
def delete_document (s : IndexState) (docId : String) (o : DeleteOutcomes) :
    IndexState × Bool :=
  match MultiIndexManager.delete_document s docId o with
  | (s2, .ok _) => (s2, true)
  | (s2, .error _) => (s2, false)

end RagInterface

/-- Embedding of `index.as_retriever(similarity_top_k=K)` retrieval over a store, for a
query whose relevance predicate on nodes is `rel`: the retriever returns (at
most `k`) nodes of its store relevant to the query. -/
def retrieveTopK (store : List Node) (rel : Node → Bool) (k : Nat) :
    List Node :=
  (store.filter rel).take k

/-- The `RagEnv` induced by an `IndexState`, a per-query relevance predicate
`rel` and a top-k bound, with all external calls succeeding.  The
knowledge-graph retriever is constructed with `include_text=False`
(`multi_index_manager.py:155-157`), so its results are synthetic
relationship nodes rather than stored document chunks; they are passed in as
`kgOut` (the theorems below hypothesise that such nodes carry no
`file_name` metadata).  `rerankF` models `SentenceTransformerRerank`
(selects among its input nodes) and `synthF` the LLM answer. -/
def envOfState (s : IndexState) (rel : Node → Bool) (k : Nat)
    (kgOut : List Node) (rerankF : List Node → List Node)
    (synthF : List Node → String) : RagEnv where
  vectorRetrieve := fun _ => .ok (retrieveTopK s.vector rel k)
  keywordRetrieve := fun _ => .ok (retrieveTopK s.keyword rel k)
  kgRetrieve := fun _ => .ok kgOut
  rerank := fun _ ns => .ok (rerankF ns)
  synthesize := fun _ ns => .ok (synthF ns)

/-! ### The LangGraph agent (`app/core/graph/graph.py`) -/

/-- Outcome of `LangGraphAgent._chat`: the result (the LLM answer, or the
terminal exception message) together with the message payload passed to the
LLM on each attempt, in attempt order. -/
structure ChatOut where
  result : Except String String
  llmPayloads : List (List String)
deriving DecidableEq, Repr

/-- The terminal error message raised at `graph.py:197` after all retry
attempts failed. -/
def chatFailMsg (maxRetries : Nat) : String :=
  "Failed to get a response from the LLM after " ++ toString maxRetries
    ++ " attempts"

namespace LangGraphAgent

/-- The retry loop of `LangGraphAgent._chat` (`graph.py:172-197`), counting
down the remaining attempts.  `llm i` is the awaited outcome of
`self.llm.ainvoke(dump_messages(messages))` on (0-based) attempt `i`;
`prepared` is the message list computed once by `prepare_messages` before
the loop, so every invocation sends the same payload.  A successful attempt
returns at once; an exception is logged and the loop continues; when the
attempts are exhausted the terminal exception of `graph.py:197` is raised. -/
def chatGo (llm : Nat → Except String String) (prepared : List String)
    (maxRetries : Nat) (attempt : Nat) : Nat → ChatOut
  | 0 => ⟨.error (chatFailMsg maxRetries), []⟩
  | r + 1 =>
    match llm attempt with
    | .ok resp => ⟨.ok resp, [prepared]⟩
    | .error _ =>
      ⟨(chatGo llm prepared maxRetries (attempt + 1) r).result,
        prepared :: (chatGo llm prepared maxRetries (attempt + 1) r).llmPayloads⟩

/-- Embedding of `LangGraphAgent._chat` (`graph.py:156-197`): prepares the messages once,
then runs up to `maxRetries` (`settings.MAX_LLM_CALL_RETRIES`) attempts. -/
def chat (llm : Nat → Except String String) (prepared : List String)
    (maxRetries : Nat) : ChatOut :=
  chatGo llm prepared maxRetries 0 maxRetries

end LangGraphAgent

/-- A tool call attached to a message (`tool_call["name"]`,
`tool_call["args"]`, `tool_call["id"]`). -/
structure PToolCall where
  name : String
  args : String
  id : String
deriving DecidableEq, Repr

/-- A LangChain `ToolMessage` as built at `graph.py:218-222`. -/
structure PToolMessage where
  content : String
  name : String
  tool_call_id : String
deriving DecidableEq, Repr

/-- The `AttributeError` raised at `graph.py:216`: `self.tools_by_name` is
read there but never assigned anywhere on `LangGraphAgent` (`__init__` sets
only `llm`, `llm_model`, `_debug`, `_connection_pool` and `_graph`). -/
def toolsByNameError : String :=
  "AttributeError: LangGraphAgent object has no attribute tools_by_name"

namespace LangGraphAgent

/-- Embedding of `LangGraphAgent._tool_call` (`graph.py:200-224`): iterates
over the tool calls of the last message in order.  The loop body's first
expression reads `self.tools_by_name` (`graph.py:216`), an attribute no code
in the repository ever assigns, so on the first iteration — i.e. for every
non-empty tool-call list — the step raises `AttributeError` before any tool
is invoked and before any `ToolMessage` is built; there is no exception
handling inside the loop.  An empty tool-call list skips the loop body and
returns the empty output list. -/
def toolCall : List PToolCall → Except String (List PToolMessage)
  | [] => .ok []
  | _ :: _ => .error toolsByNameError

end LangGraphAgent

/-- Modelled from the spec: the deployment environment enum of
`app/core/config.py` (not under `src/`); the spec distinguishes a production
deployment mode from development/test modes. -/
inductive DeployEnv where
  | development
  | test
  | production
deriving DecidableEq, Repr

/-- The compiled LangGraph workflow as `create_graph` returns it: all that
matters to the claims below is whether a checkpointer was attached at
`workflow.compile(...)`. -/
structure CompiledGraph where
  checkpointer : Option Unit
deriving DecidableEq, Repr

/-- A message in OpenAI style, as produced by `convert_to_openai_messages`
(`graph.py:84`): a role and a content string. -/
structure OaMessage where
  role : String
  content : String
deriving DecidableEq, Repr

namespace LangGraphAgent

/-- Embedding of `LangGraphAgent.__process_messages` (`graph.py:83-96`): in debug mode —
when the `debug` argument, the agent's `_debug` flag and a development/test
environment all hold — every message is returned; otherwise only
user/assistant messages with non-empty content are kept. -/
def processMessages (msgs : List OaMessage) (debug selfDebug : Bool)
    (env : DeployEnv) : List OaMessage :=
  if debug && selfDebug
      && (env == DeployEnv.development || env == DeployEnv.test) then
    msgs
  else
    msgs.filter
      (fun m => (m.role == "assistant" || m.role == "user")
        && m.content != "")

/-- Embedding of `LangGraphAgent.create_graph` (`graph.py:226-279`).  `poolOk` is whether
the connection-pool creation of `_get_connection_pool` succeeds.  When the
pool is available an `AsyncPostgresSaver` checkpointer is constructed and
set up; when it is not, in production the pool is `None` and the checkpointer
stays `None`, while outside production the exception propagates.  The
workflow is then compiled with the literal argument `checkpointer=None`
(`graph.py:260-263`), so the compiled graph never carries a checkpointer. -/
def createGraph (env : DeployEnv) (poolOk : Bool) :
    Except String CompiledGraph :=
  if poolOk then
    .ok { checkpointer := none }
  else if env == DeployEnv.production then
    .ok { checkpointer := none }
  else
    .error "connection_pool_creation_failed"

/-- Behaviour of `CompiledStateGraph.get_state` as the langgraph library behaves on the
compiled graph: with no checkpointer attached it raises
`ValueError("No checkpointer set")`; with one attached it returns the
checkpointed message state for the thread id, if any.  `persisted` is the
checkpoint store's content, keyed by session id. -/
def graphGetState (g : CompiledGraph)
    (persisted : String → Option (List OaMessage)) (sid : String) :
    Except String (Option (List OaMessage)) :=
  match g.checkpointer with
  | none => .error "No checkpointer set"
  | some _ => .ok (persisted sid)

/-- Embedding of `LangGraphAgent.get_chat_history` (`graph.py:347-363`): reads the graph
state for the session and processes the stored messages; an empty snapshot
yields `[]`.  An exception from `get_state` propagates. -/
def getChatHistory (g : CompiledGraph)
    (persisted : String → Option (List OaMessage)) (sid : String)
    (debug selfDebug : Bool) (env : DeployEnv) :
    Except String (List OaMessage) :=
  match graphGetState g persisted sid with
  | .error e => .error e
  | .ok none => .ok []
  | .ok (some msgs) => .ok (processMessages msgs debug selfDebug env)

end LangGraphAgent

/-! ### The documents upload route (`app/api/v1/documents.py`) -/

/-- A row of the uploaded-documents table. -/
structure DbDoc where
  id : Nat
  userId : Nat
  filename : String
  size : Nat
  extension : String
deriving DecidableEq, Repr

/-- Modelled from the spec: `app/services/database.py` is not under `src/`;
the spec scopes it as "relational storage of … document metadata".
`get_uploaded_document(user_id, file_name, size)` returns the tracked
document of that user with this file name and size, if one exists. -/
def get_uploaded_document (db : List DbDoc) (uid : Nat) (fname : String)
    (size : Nat) : Option DbDoc :=
  db.find? (fun d => d.userId == uid && d.filename == fname && d.size == size)

/-- State touched by the upload route: the document-metadata table and the
list of document index ids added to the RAG indices. -/
structure UploadState where
  db : List DbDoc
  nextId : Nat
  ragDocs : List String
deriving DecidableEq, Repr

/-- Modelled from the spec: `app/services/database.py` is not under `src/`.
`create_upload_document` inserts a new tracked-document row and returns
it. -/
def create_upload_document (st : UploadState) (uid : Nat) (fname : String)
    (size : Nat) (ext : String) : UploadState × DbDoc :=
  let doc : DbDoc := ⟨st.nextId, uid, fname, size, ext⟩
  ({ st with db := st.db ++ [doc], nextId := st.nextId + 1 }, doc)

/-- The `DocumentResponse` schema returned by the upload route. -/
structure DocumentResponse where
  id : Nat
  name : String
  size : Nat
  extension : String
  index_id : Option String
deriving DecidableEq, Repr

/-- Embedding of `upload_document` (`documents.py:37-70`): first asks the database for an
already-tracked document of this user with the same file name and size; if
one exists it returns that document's descriptor at once — the file is not
saved, `rag.add_document` is not called and no row is created.  Otherwise it
saves the file, indexes it (`newIndexId` is the id `rag.add_document`
returns), creates the row and returns the fresh descriptor.  `ext` stands
for `os.path.splitext(filename)[-1].lower()`. -/
def upload_document (st : UploadState) (uid : Nat) (fname : String)
    (size : Nat) (newIndexId : String) (ext : String) :
    UploadState × DocumentResponse :=
  match get_uploaded_document st.db uid fname size with
  | some doc => (st, ⟨doc.id, doc.filename, doc.size, doc.extension, none⟩)
  | none =>
    let st1 : UploadState := { st with ragDocs := st.ragDocs ++ [newIndexId] }
    let (st2, doc) := create_upload_document st1 uid fname size ext
    (st2, ⟨doc.id, doc.filename, doc.size, doc.extension, some newIndexId⟩)

/-! ### The knowledge-base tool (`app/core/tools/knowledge_base.py`) -/

namespace KnowledgeBaseTool

/-- Embedding of `KnowledgeBaseTool._arun` (`knowledge_base.py:35-43`) applied to the
awaited result of `rag_system.search(query)`: with no sources it returns the
answer annotated `Not found in the knowledge base`, otherwise the answer
with the comma-joined source names. -/
def arun (response : RAGResponse) : String :=
  if response.sources.isEmpty then
    "Answer: " ++ response.answer ++ "\nSources: Not found in the knowledge base"
  else
    "Answer: " ++ response.answer ++ "\nSources: "
      ++ String.intercalate ", " response.sources

end KnowledgeBaseTool

/-! ### Specification helpers and concrete instances used by the theorems -/

/-- Specification helper: the last node carrying the given id in a list, if
any (the suffix is scanned before the head, so later arrivals win). -/
def lastWithId : List Node → String → Option Node
  | [], _ => none
  | n :: rest, k =>
    match lastWithId rest k with
    | some m => some m
    | none => if n.id_ == k then some n else none

/-- Specification helper: the node ids of a list in first-seen order,
skipping ids already in `seen`. -/
def firstSeenKeys : List Node → List String → List String
  | [], _ => []
  | n :: rest, seen =>
    if seen.any (fun s => s == n.id_) then firstSeenKeys rest seen
    else n.id_ :: firstSeenKeys rest (seen ++ [n.id_])

/-- A RAG environment over an empty knowledge base: every retriever returns
no nodes. -/
def emptyRagEnv : RagEnv where
  vectorRetrieve := fun _ => .ok []
  keywordRetrieve := fun _ => .ok []
  kgRetrieve := fun _ => .ok []
  rerank := fun _ ns => .ok ns
  synthesize := fun _ _ => .ok "synthesized"

/-- A node only the keyword retriever would return. -/
def nodeKeywordOnly : Node := ⟨"kw-1", "doc-1", some "plants.txt", "keyword hit"⟩

/-- A RAG environment whose semantic retriever raises while the keyword
retriever has a result and every other collaborator succeeds. -/
def envVectorDown : RagEnv where
  vectorRetrieve := fun _ => .error (.exn "vector retriever down")
  keywordRetrieve := fun _ => .ok [nodeKeywordOnly]
  kgRetrieve := fun _ => .ok []
  rerank := fun _ ns => .ok ns
  synthesize := fun _ _ => .ok "synthesized"

/-- An LLM stub failing transiently on the first two attempts and
succeeding on the third. -/
def llmFlaky : Nat → Except String String :=
  fun i => if i < 2 then .error "transient provider failure"
    else .ok "final answer"

/-- The single chunk of an indexed document. -/
def docNode : Node :=
  ⟨"chunk-1", "doc-1", some "tomatoes_fert_plan.txt", "fertilize weekly"⟩

/-- An index state in which every store holds only `docNode`. -/
def stateWithDoc : IndexState := ⟨[docNode], [docNode], [docNode]⟩

/-- A synthetic relationship node as the knowledge-graph retriever emits
with `include_text=False`: no `file_name` metadata. -/
def kgSyntheticNode : Node := ⟨"kg-1", "", none, "knowledge graph triplets"⟩

/-- Relevance predicate of a query matched only by `doc-1` chunks. -/
def relDemo : Node → Bool := fun n => n.refDocId == "doc-1"

/-- An already-tracked uploaded-document row. -/
def trackedDoc : DbDoc := ⟨7, 1, "tomatoes_fert_plan.txt", 2048, ".txt"⟩

/-- The fused (deduplicated) retrieval union produced inside `aquery` for
the environment induced by an index state: semantic results, then keyword
results, then the knowledge-graph retriever output. -/
def fusedUnion (s : IndexState) (rel : Node → Bool) (k : Nat)
    (kgOut : List Node) : List Node :=
  combinedNodes (retrieveTopK s.vector rel k) (retrieveTopK s.keyword rel k)
    kgOut

/-! ## Lemmas about the Python dict model -/

theorem dictInsert_pos (d : List (String × Node)) (k : String) (v : Node)
    (h : d.any (fun p => p.1 == k) = true) :
    dictInsert d k v = d.map (fun p => if p.1 == k then (k, v) else p) := by
  unfold dictInsert
  exact if_pos h

theorem dictInsert_neg (d : List (String × Node)) (k : String) (v : Node)
    (h : ¬ d.any (fun p => p.1 == k) = true) :
    dictInsert d k v = d ++ [(k, v)] := by
  unfold dictInsert
  exact if_neg h

theorem lookupDict_cons_eq (p : String × Node) (rest : List (String × Node))
    (k : String) :
    lookupDict (p :: rest) k
      = if (p.1 == k) = true then some p.2 else lookupDict rest k := rfl

theorem lookupDict_cons_pos (p : String × Node) (rest : List (String × Node))
    (k : String) (h : (p.1 == k) = true) :
    lookupDict (p :: rest) k = some p.2 := by
  rw [lookupDict_cons_eq, if_pos h]

theorem lookupDict_cons_neg (p : String × Node) (rest : List (String × Node))
    (k : String) (h : ¬ (p.1 == k) = true) :
    lookupDict (p :: rest) k = lookupDict rest k := by
  rw [lookupDict_cons_eq, if_neg h]

theorem map_replace_id (k : String) (v : Node) :
    ∀ d : List (String × Node), d.any (fun p => p.1 == k) = false →
      d.map (fun p => if p.1 == k then (k, v) else p) = d
  | [], _ => rfl
  | p :: rest, ha => by
    rw [List.any_cons, Bool.or_eq_false_iff] at ha
    rw [List.map_cons, if_neg (by rw [ha.1]; exact Bool.false_ne_true),
      map_replace_id k v rest ha.2]

theorem lookupDict_append_right (k : String) (l2 : List (String × Node)) :
    ∀ l1 : List (String × Node), l1.any (fun p => p.1 == k) = false →
      lookupDict (l1 ++ l2) k = lookupDict l2 k
  | [], _ => rfl
  | p :: rest, ha => by
    rw [List.any_cons, Bool.or_eq_false_iff] at ha
    rw [List.cons_append,
      lookupDict_cons_neg _ _ _ (by rw [ha.1]; exact Bool.false_ne_true),
      lookupDict_append_right k l2 rest ha.2]

theorem lookupDict_dictInsert_self (k : String) (v : Node) :
    ∀ d : List (String × Node), lookupDict (dictInsert d k v) k = some v
  | [] => by
    rw [dictInsert_neg _ _ _ (by simp), List.nil_append,
      lookupDict_cons_pos _ _ _ (by simp)]
  | p :: rest => by
    by_cases hp : (p.1 == k) = true
    · rw [dictInsert_pos _ _ _ (by rw [List.any_cons, hp, Bool.true_or]),
        List.map_cons, if_pos hp, lookupDict_cons_pos _ _ _ (by simp)]
    · by_cases ha : rest.any (fun q => q.1 == k) = true
      · have hins := lookupDict_dictInsert_self k v rest
        rw [dictInsert_pos rest k v ha] at hins
        rw [dictInsert_pos _ _ _ (by rw [List.any_cons, ha, Bool.or_true]),
          List.map_cons, if_neg hp, lookupDict_cons_neg _ _ _ hp]
        exact hins
      · have hpf := Bool.eq_false_iff.mpr hp
        have haf := Bool.eq_false_iff.mpr ha
        have hcons : ((p :: rest).any fun q => q.1 == k) = false := by
          rw [List.any_cons, hpf, Bool.false_or]
          exact haf
        have hins := lookupDict_dictInsert_self k v rest
        rw [dictInsert_neg rest k v ha] at hins
        rw [dictInsert_neg _ _ _ (by rw [hcons]; exact Bool.false_ne_true),
          List.cons_append, lookupDict_cons_neg _ _ _ hp]
        exact hins

theorem lookupDict_dictInsert_ne (k kq : String) (v : Node) (h : ¬ kq = k) :
    ∀ d : List (String × Node),
      lookupDict (dictInsert d k v) kq = lookupDict d kq
  | [] => by
    have hkk : ¬ ((k == kq) = true) := by
      simp only [beq_iff_eq]
      intro hk
      exact h hk.symm
    rw [dictInsert_neg _ _ _ (by simp), List.nil_append,
      lookupDict_cons_neg _ _ _ hkk]
  | p :: rest => by
    have hkk : ¬ ((k == kq) = true) := by
      simp only [beq_iff_eq]
      intro hk
      exact h hk.symm
    by_cases hp : (p.1 == k) = true
    · have hpk : p.1 = k := by simpa using hp
      have hpk2 : ¬ ((p.1 == kq) = true) := by rw [hpk]; exact hkk
      have hmap : dictInsert (p :: rest) k v
          = (k, v) :: rest.map (fun q => if q.1 == k then (k, v) else q) := by
        rw [dictInsert_pos _ _ _ (by rw [List.any_cons, hp, Bool.true_or]),
          List.map_cons, if_pos hp]
      rw [hmap, lookupDict_cons_neg _ _ _ hkk,
        lookupDict_cons_neg _ _ _ hpk2]
      by_cases ha : rest.any (fun q => q.1 == k) = true
      · have ihne := lookupDict_dictInsert_ne k kq v h rest
        rw [dictInsert_pos rest k v ha] at ihne
        exact ihne
      · rw [map_replace_id k v rest (Bool.eq_false_iff.mpr ha)]
    · by_cases ha : rest.any (fun q => q.1 == k) = true
      · have ihne := lookupDict_dictInsert_ne k kq v h rest
        rw [dictInsert_pos rest k v ha] at ihne
        rw [dictInsert_pos _ _ _ (by rw [List.any_cons, ha, Bool.or_true]),
          List.map_cons, if_neg hp]
        by_cases hq : (p.1 == kq) = true
        · rw [lookupDict_cons_pos _ _ _ hq, lookupDict_cons_pos _ _ _ hq]
        · rw [lookupDict_cons_neg _ _ _ hq, lookupDict_cons_neg _ _ _ hq]
          exact ihne
      · have hpf := Bool.eq_false_iff.mpr hp
        have haf := Bool.eq_false_iff.mpr ha
        have hcons : ((p :: rest).any fun q => q.1 == k) = false := by
          rw [List.any_cons, hpf, Bool.false_or]
          exact haf
        have ihne := lookupDict_dictInsert_ne k kq v h rest
        rw [dictInsert_neg rest k v ha] at ihne
        rw [dictInsert_neg _ _ _ (by rw [hcons]; exact Bool.false_ne_true),
          List.cons_append]
        by_cases hq : (p.1 == kq) = true
        · rw [lookupDict_cons_pos _ _ _ hq, lookupDict_cons_pos _ _ _ hq]
        · rw [lookupDict_cons_neg _ _ _ hq, lookupDict_cons_neg _ _ _ hq]
          exact ihne

theorem lookupDict_pyDict_go (k : String) :
    ∀ (l : List Node) (d : List (String × Node)),
      lookupDict (l.foldl (fun d n => dictInsert d n.id_ n) d) k =
        match lastWithId l k with
        | some m => some m
        | none => lookupDict d k
  | [], d => by simp [lastWithId]
  | n :: rest, d => by
    rw [List.foldl_cons, lookupDict_pyDict_go k rest (dictInsert d n.id_ n)]
    cases hl : lastWithId rest k with
    | some m => simp only [lastWithId, hl]
    | none =>
      simp only [lastWithId, hl]
      by_cases hk : (n.id_ == k) = true
      · have hnk : n.id_ = k := by simpa using hk
        rw [if_pos hk, ← hnk]
        exact lookupDict_dictInsert_self n.id_ n d
      · have hnk : ¬ n.id_ = k := by simpa using hk
        rw [if_neg hk]
        exact lookupDict_dictInsert_ne n.id_ k n (fun hc => hnk hc.symm) d

theorem keys_dictInsert (d : List (String × Node)) (k : String) (v : Node) :
    (dictInsert d k v).map Prod.fst =
      if d.any (fun p => p.1 == k) = true then d.map Prod.fst
      else d.map Prod.fst ++ [k] := by
  by_cases h : d.any (fun p => p.1 == k) = true
  · rw [if_pos h, dictInsert_pos d k v h, List.map_map]
    apply List.map_congr_left
    intro p _
    by_cases hpk : (p.1 == k) = true
    · have hp1 : p.1 = k := by simpa using hpk
      rw [Function.comp_apply, if_pos hpk]
      exact hp1.symm
    · rw [Function.comp_apply, if_neg hpk]
  · rw [if_neg h, dictInsert_neg d k v h, List.map_append]
    rfl

theorem any_map_fst (k : String) :
    ∀ d : List (String × Node),
      (d.map Prod.fst).any (fun s => s == k) = d.any (fun p => p.1 == k)
  | [] => rfl
  | q :: tail => by
    rw [List.map_cons, List.any_cons, List.any_cons, any_map_fst k tail]

theorem keys_pyDict_go :
    ∀ (l : List Node) (d : List (String × Node)),
      (l.foldl (fun d n => dictInsert d n.id_ n) d).map Prod.fst
        = d.map Prod.fst ++ firstSeenKeys l (d.map Prod.fst)
  | [], d => by simp [firstSeenKeys]
  | n :: rest, d => by
    rw [List.foldl_cons, keys_pyDict_go rest (dictInsert d n.id_ n),
      keys_dictInsert]
    simp only [firstSeenKeys, any_map_fst n.id_ d]
    by_cases h : d.any (fun p => p.1 == n.id_) = true
    · rw [if_pos h, if_pos h]
    · rw [if_neg h, if_neg h]
      simp

theorem mem_dictInsert (d : List (String × Node)) (k : String) (v : Node)
    (p : String × Node) (hp : p ∈ dictInsert d k v) : p.2 = v ∨ p ∈ d := by
  by_cases h : d.any (fun q => q.1 == k) = true
  · rw [dictInsert_pos d k v h] at hp
    obtain ⟨q, hq, hfq⟩ := List.mem_map.mp hp
    subst hfq
    by_cases hqk : (q.1 == k) = true
    · rw [if_pos hqk]
      exact .inl rfl
    · rw [if_neg hqk]
      exact .inr hq
  · rw [dictInsert_neg d k v h] at hp
    rcases List.mem_append.mp hp with h1 | h2
    · exact .inr h1
    · have hpk : p = (k, v) := by simpa using h2
      exact .inl (by rw [hpk])

theorem snd_mem_pyDict_go :
    ∀ (l : List Node) (d : List (String × Node)) (p : String × Node),
      p ∈ l.foldl (fun d n => dictInsert d n.id_ n) d →
        p.2 ∈ l ∨ p ∈ d
  | [], _, _, hp => .inr hp
  | n :: rest, d, p, hp => by
    rw [List.foldl_cons] at hp
    rcases snd_mem_pyDict_go rest (dictInsert d n.id_ n) p hp with h1 | h2
    · exact .inl (List.mem_cons_of_mem n h1)
    · rcases mem_dictInsert d n.id_ n p h2 with h3 | h4
      · exact .inl (by rw [h3]; exact List.mem_cons_self n rest)
      · exact .inr h4

theorem mem_combinedNodes (v kw g : List Node) (x : Node)
    (h : x ∈ combinedNodes v kw g) : x ∈ v ++ kw ++ g := by
  unfold combinedNodes pyDictOfNodes at h
  obtain ⟨p, hp, hpx⟩ := List.mem_map.mp h
  rcases snd_mem_pyDict_go (v ++ kw ++ g) [] p hp with h1 | h2
  · rwa [hpx] at h1
  · exact absurd h2 (List.not_mem_nil p)

/-! ## Claim theorems -/

/-- C1: when the fused retrieval result set is empty, `aquery` returns the
canned `"Could not retrieve any information."` response without invoking the
reranker or the synthesizer — but `RagInterface.search` then raises an
`AttributeError` (the canned response's metadata is `None`) instead of
returning the `{answer, sources: []}` wrapper the claim states. -/
theorem claim_C1_empty_union_short_circuit (env : RagEnv) (q : String)
    (hv : env.vectorRetrieve q = .ok [])
    (hk : env.keywordRetrieve q = .ok [])
    (hg : env.kgRetrieve q = .ok []) :
    RAGQueryEngine.aquery env q
        = ⟨.ok ⟨cannedAnswer, [], none⟩, 0, 0⟩
      ∧ RagInterface.search env q = .error PyErr.attributeNoneGet := by
  have ha : RAGQueryEngine.aquery env q
      = ⟨.ok ⟨cannedAnswer, [], none⟩, 0, 0⟩ := by
    unfold RAGQueryEngine.aquery
    rw [hv, hk, hg]
    rfl
  refine ⟨ha, ?_⟩
  unfold RagInterface.search
  rw [ha]

/-- C1 witness: the empty knowledge base, queried as in the spec scenario. -/
theorem claim_C1_empty_union_short_circuit_witness :
    RAGQueryEngine.aquery emptyRagEnv "How often should I water tomatoes?"
        = ⟨.ok ⟨cannedAnswer, [], none⟩, 0, 0⟩
      ∧ RagInterface.search emptyRagEnv "How often should I water tomatoes?"
        = .error PyErr.attributeNoneGet :=
  claim_C1_empty_union_short_circuit emptyRagEnv
    "How often should I water tomatoes?" rfl rfl rfl

/-- C2 counterexample: with the semantic retriever raising and the keyword
retriever holding a result, `aquery` aborts with the retriever's exception
and never reaches reranking or synthesis — the claim's per-retriever
containment does not exist in the code. -/
theorem claim_C2_counterexample :
    RAGQueryEngine.aquery envVectorDown "how should I water tomatoes?"
        = ⟨.error (PyErr.exn "vector retriever down"), 0, 0⟩
      ∧ envVectorDown.keywordRetrieve "how should I water tomatoes?"
        = .ok [nodeKeywordOnly] :=
  ⟨rfl, rfl⟩

/-- C2 amended: an exception raised by any of the three retrievers
propagates out of `aquery` and aborts the query before reranking and
synthesis; a reranker exception propagates likewise; and even a successful
rerank aborts the query whenever it returns any nodes, with the `TypeError`
raised by the score-joining debug log at `query_engine.py:84` — the
synthesizer is never invoked on that path, so synthesis exceptions are not
the only ones that reach the caller. -/
theorem claim_C2_retriever_exception_propagates (env : RagEnv) (q : String)
    (e : PyErr) :
    (env.vectorRetrieve q = .error e →
      RAGQueryEngine.aquery env q = ⟨.error e, 0, 0⟩)
    ∧ (∀ vs, env.vectorRetrieve q = .ok vs →
        env.keywordRetrieve q = .error e →
        RAGQueryEngine.aquery env q = ⟨.error e, 0, 0⟩)
    ∧ (∀ vs ks, env.vectorRetrieve q = .ok vs →
        env.keywordRetrieve q = .ok ks →
        env.kgRetrieve q = .error e →
        RAGQueryEngine.aquery env q = ⟨.error e, 0, 0⟩)
    ∧ (∀ vs ks gs, env.vectorRetrieve q = .ok vs →
        env.keywordRetrieve q = .ok ks →
        env.kgRetrieve q = .ok gs →
        (combinedNodes vs ks gs).isEmpty = false →
        env.rerank q (combinedNodes vs ks gs) = .error e →
        RAGQueryEngine.aquery env q = ⟨.error e, 1, 0⟩)
    ∧ (∀ vs ks gs rs, env.vectorRetrieve q = .ok vs →
        env.keywordRetrieve q = .ok ks →
        env.kgRetrieve q = .ok gs →
        (combinedNodes vs ks gs).isEmpty = false →
        env.rerank q (combinedNodes vs ks gs) = .ok rs →
        rs.isEmpty = false →
        RAGQueryEngine.aquery env q
          = ⟨.error (PyErr.typeError
              "sequence item 0: expected str instance, float found"),
              1, 0⟩) := by
  refine ⟨?_, ?_, ?_, ?_, ?_⟩
  · intro h
    unfold RAGQueryEngine.aquery
    rw [h]
  · intro vs h1 h2
    unfold RAGQueryEngine.aquery
    rw [h1, h2]
  · intro vs ks h1 h2 h3
    unfold RAGQueryEngine.aquery
    rw [h1, h2, h3]
  · intro vs ks gs h1 h2 h3 hne hr
    unfold RAGQueryEngine.aquery
    rw [h1, h2, h3]
    simp only [hne, hr, Bool.false_eq_true, if_false]
  · intro vs ks gs rs h1 h2 h3 hne hr hrs
    unfold RAGQueryEngine.aquery
    rw [h1, h2, h3]
    simp only [hne, hr, hrs, Bool.false_eq_true, if_false]

/-- C2 witness: the amended propagation applied to the concrete environment
with a failing semantic retriever. -/
theorem claim_C2_retriever_exception_propagates_witness :
    RAGQueryEngine.aquery envVectorDown "water schedule"
      = ⟨.error (PyErr.exn "vector retriever down"), 0, 0⟩ :=
  (claim_C2_retriever_exception_propagates envVectorDown "water schedule"
    (PyErr.exn "vector retriever down")).1 rfl

/-- C3 counterexample: two nodes with the same id arriving from the
semantic and the keyword retriever — the deduplicated union keeps the
later (keyword) node, not the first-seen one as the claim states. -/
theorem claim_C3_counterexample :
    combinedNodes [⟨"n-1", "docA", some "a.txt", "early text"⟩]
        [⟨"n-1", "docB", some "b.txt", "late text"⟩] []
      = [⟨"n-1", "docB", some "b.txt", "late text"⟩]
    ∧ combinedNodes [⟨"n-1", "docA", some "a.txt", "early text"⟩]
        [⟨"n-1", "docB", some "b.txt", "late text"⟩] []
      ≠ [⟨"n-1", "docA", some "a.txt", "early text"⟩] := by
  constructor
  · rfl
  · decide

/-- C3 amended: in the deduplicated union built by `aquery`, a duplicated
id keeps the slot of its first occurrence in index-priority order
(semantic, then keyword, then relationship), but the node stored under the
id is the last-seen one — a later arrival overwrites the value of an
earlier one in place. -/
theorem claim_C3_union_dedup (v kw g : List Node) :
    combinedNodes v kw g
        = (pyDictOfNodes (v ++ kw ++ g)).map (fun p => p.2)
      ∧ (pyDictOfNodes (v ++ kw ++ g)).map Prod.fst
          = firstSeenKeys (v ++ kw ++ g) []
      ∧ ∀ k : String,
          lookupDict (pyDictOfNodes (v ++ kw ++ g)) k
            = lastWithId (v ++ kw ++ g) k := by
  refine ⟨rfl, ?_, ?_⟩
  · have h := keys_pyDict_go (v ++ kw ++ g) []
    unfold pyDictOfNodes
    simpa using h
  · intro k
    have h := lookupDict_pyDict_go k (v ++ kw ++ g) []
    unfold pyDictOfNodes
    rw [h]
    cases lastWithId (v ++ kw ++ g) k with
    | some m => rfl
    | none => rfl


/-- Helper for C4: when every attempt in the window raises, the retry loop
exhausts its attempts and raises the terminal error, having sent the same
prepared payload on every attempt. -/
theorem chatGo_all_fail (llm : Nat → Except String String)
    (prepared : List String) (maxRetries : Nat) :
    ∀ (r attempt : Nat),
      (∀ i, attempt ≤ i → i < attempt + r → ∃ e, llm i = .error e) →
      LangGraphAgent.chatGo llm prepared maxRetries attempt r
        = ⟨.error (chatFailMsg maxRetries), List.replicate r prepared⟩
  | 0, _, _ => rfl
  | r + 1, attempt, h => by
    obtain ⟨e, he⟩ := h attempt (Nat.le_refl _) (by omega)
    have hrest := chatGo_all_fail llm prepared maxRetries r (attempt + 1)
      (fun i hi1 hi2 => h i (by omega) (by omega))
    unfold LangGraphAgent.chatGo
    rw [he, hrest, List.replicate_succ]

/-- Helper for C4: with the first success at absolute attempt `j` inside the
window, the retry loop returns that response after `j - attempt + 1`
identical invocations. -/
theorem chatGo_success (llm : Nat → Except String String)
    (prepared : List String) (maxRetries : Nat) :
    ∀ (r attempt j : Nat) (res : String),
      attempt ≤ j → j < attempt + r →
      (∀ i, attempt ≤ i → i < j → ∃ e, llm i = .error e) →
      llm j = .ok res →
      LangGraphAgent.chatGo llm prepared maxRetries attempt r
        = ⟨.ok res, List.replicate (j - attempt + 1) prepared⟩
  | 0, attempt, j, res, hle, hlt, _, _ => absurd hlt (by omega)
  | r + 1, attempt, j, res, hle, hlt, hfail, hok => by
    by_cases hj : attempt = j
    · subst hj
      unfold LangGraphAgent.chatGo
      rw [hok, Nat.sub_self]
      rfl
    · have hlt2 : attempt < j := Nat.lt_of_le_of_ne hle hj
      obtain ⟨e, he⟩ := hfail attempt (Nat.le_refl _) hlt2
      have hrest := chatGo_success llm prepared maxRetries r (attempt + 1) j
        res hlt2 (by omega) (fun i h1 h2 => hfail i (by omega) h2) hok
      unfold LangGraphAgent.chatGo
      rw [he, hrest]
      have harith : j - attempt + 1 = (j - (attempt + 1) + 1) + 1 := by omega
      rw [harith, List.replicate_succ]
      rfl

/-- C4: `_chat` sends the same prepared message payload on every attempt,
returns the first successful LLM response (whenever the provider fails
fewer than `maxRetries` times before succeeding), and raises the terminal
exception of `graph.py:197` exactly when all `maxRetries` attempts fail —
never a partial or empty answer. -/
theorem claim_C4_chat_retry_bound (llm : Nat → Except String String)
    (prepared : List String) (maxRetries : Nat) :
    (∀ j res, j < maxRetries →
      (∀ i, i < j → ∃ e, llm i = .error e) → llm j = .ok res →
      LangGraphAgent.chat llm prepared maxRetries
        = ⟨.ok res, List.replicate (j + 1) prepared⟩)
    ∧ ((∀ i, i < maxRetries → ∃ e, llm i = .error e) →
      LangGraphAgent.chat llm prepared maxRetries
        = ⟨.error (chatFailMsg maxRetries),
            List.replicate maxRetries prepared⟩) := by
  constructor
  · intro j res hj hfail hok
    unfold LangGraphAgent.chat
    rw [chatGo_success llm prepared maxRetries maxRetries 0 j res
      (Nat.zero_le _) (by omega) (fun i _ h2 => hfail i h2) hok,
      Nat.sub_zero]
  · intro hfail
    unfold LangGraphAgent.chat
    exact chatGo_all_fail llm prepared maxRetries maxRetries 0
      (fun i _ h2 => hfail i (by omega))

/-- C4 witness: a provider failing transiently exactly twice succeeds with
three configured attempts and fails terminally with two. -/
theorem claim_C4_chat_retry_bound_witness :
    LangGraphAgent.chat llmFlaky ["system prompt", "user message"] 3
        = ⟨.ok "final answer",
            List.replicate 3 ["system prompt", "user message"]⟩
      ∧ LangGraphAgent.chat llmFlaky ["system prompt", "user message"] 2
        = ⟨.error (chatFailMsg 2),
            List.replicate 2 ["system prompt", "user message"]⟩ := by
  constructor
  · exact (claim_C4_chat_retry_bound llmFlaky
      ["system prompt", "user message"] 3).1 2 "final answer" (by omega)
      (fun i hi => ⟨"transient provider failure", by
        interval_cases i <;> rfl⟩) rfl
  · exact (claim_C4_chat_retry_bound llmFlaky
      ["system prompt", "user message"] 2).2
      (fun i hi => ⟨"transient provider failure", by
        interval_cases i <;> rfl⟩)

/-- C5 counterexample: a last message carrying two tool calls makes
`_tool_call` raise the `tools_by_name` `AttributeError` before invoking any
tool — no failure-indicating tool message is produced and no call is
executed, contrary to the claim. -/
theorem claim_C5_counterexample :
    LangGraphAgent.toolCall
        [⟨"search_knowledge_base", "arg-1", "call-1"⟩,
         ⟨"npk_calculator", "arg-2", "call-2"⟩]
      = .error toolsByNameError := rfl

/-- C5 amended: `_tool_call` contains no per-call exception handling, and
`self.tools_by_name` is never assigned on the agent, so for every non-empty
tool-call list the step raises `AttributeError` on its first iteration —
before invoking any tool and without producing any tool-result message;
only an empty tool-call list yields the empty output list. -/
theorem claim_C5_tool_step_raises (calls : List PToolCall) :
    (calls = [] → LangGraphAgent.toolCall calls = .ok [])
    ∧ (calls ≠ [] →
        LangGraphAgent.toolCall calls = .error toolsByNameError) := by
  constructor
  · intro h
    rw [h]
    rfl
  · intro h
    cases calls with
    | nil => exact absurd rfl h
    | cons c rest => rfl

/-- C5 witness: the amended behaviour at a concrete one-call list and at
the empty list. -/
theorem claim_C5_tool_step_raises_witness :
    LangGraphAgent.toolCall [⟨"search_knowledge_base", "arg-3", "call-9"⟩]
        = .error toolsByNameError
      ∧ LangGraphAgent.toolCall [] = .ok [] :=
  ⟨(claim_C5_tool_step_raises
      [⟨"search_knowledge_base", "arg-3", "call-9"⟩]).2
      (by simp),
    (claim_C5_tool_step_raises []).1 rfl⟩


/-- Helper for C6: closed form of `search` over the environment induced by
an index state.  A non-empty fused union whose rerank returns nodes aborts
with the `query_engine.py:84` `TypeError`; an empty union aborts with the
`AttributeError` of `rag_interface.py:136`; the only successful outcome —
the reranker returning no nodes — carries an empty source list. -/
theorem search_envOfState_eq (s : IndexState) (rel : Node → Bool) (k : Nat)
    (kgOut : List Node) (rerankF : List Node → List Node)
    (synthF : List Node → String) (q : String) :
    RagInterface.search (envOfState s rel k kgOut rerankF synthF) q
      = if (fusedUnion s rel k kgOut).isEmpty then
          .error PyErr.attributeNoneGet
        else if (rerankF (fusedUnion s rel k kgOut)).isEmpty then
          .ok ⟨synthF (rerankF (fusedUnion s rel k kgOut)), []⟩
        else
          .error (PyErr.typeError
            "sequence item 0: expected str instance, float found") := by
  unfold RagInterface.search RAGQueryEngine.aquery envOfState fusedUnion
  by_cases hc : (combinedNodes (retrieveTopK s.vector rel k)
      (retrieveTopK s.keyword rel k) kgOut).isEmpty = true
  · simp only [hc, if_true]
  · simp only [hc, if_false, Bool.false_eq_true]
    by_cases hre : (rerankF (combinedNodes (retrieveTopK s.vector rel k)
        (retrieveTopK s.keyword rel k) kgOut)).isEmpty = true
    · simp only [hre, if_true]
      simp [metaGet]
    · simp only [hre, if_false, Bool.false_eq_true]

/-- C6: after `delete_document` removes a document's nodes from the
semantic and keyword stores (the knowledge-graph store is untouched, its
deletion being commented out), a subsequent search never reports the
deleted document's file name among its sources.  In fact no search can
report any source at all: when the fused union is non-empty and reranking
yields nodes, the `query_engine.py:84` `TypeError` aborts the query before
synthesis; when the union is empty, `search` raises the `AttributeError` of
`rag_interface.py:136`; the sole successful path — the reranker returning
no nodes — produces an empty source list, since the `metadata['sources']`
assignment is guarded by `source_nodes` being non-empty. -/
theorem claim_C6_delete_then_search (s : IndexState) (docId fname q : String)
    (rel : Node → Bool) (k : Nat) (kgOut : List Node)
    (rerankF : List Node → List Node) (synthF : List Node → String) :
    ∀ resp,
      RagInterface.search
          (envOfState
            (MultiIndexManager.delete_document s docId DeleteOutcomes.allOk).1
            rel k kgOut rerankF synthF) q
        = .ok resp →
      resp.sources = [] ∧ fname ∉ resp.sources := by
  intro resp hok
  have hdel : (MultiIndexManager.delete_document s docId
      DeleteOutcomes.allOk).1
      = ⟨s.vector.filter (fun n => n.refDocId != docId),
         s.keyword.filter (fun n => n.refDocId != docId), s.kg⟩ := rfl
  rw [hdel, search_envOfState_eq] at hok
  by_cases hc : (fusedUnion
      ⟨s.vector.filter (fun n => n.refDocId != docId),
       s.keyword.filter (fun n => n.refDocId != docId), s.kg⟩
      rel k kgOut).isEmpty = true
  · rw [if_pos hc] at hok
    cases hok
  · rw [if_neg hc] at hok
    by_cases hre : (rerankF (fusedUnion
        ⟨s.vector.filter (fun n => n.refDocId != docId),
         s.keyword.filter (fun n => n.refDocId != docId), s.kg⟩
        rel k kgOut)).isEmpty = true
    · rw [if_pos hre] at hok
      injection hok with h
      rw [← h]
      exact ⟨rfl, List.not_mem_nil fname⟩
    · rw [if_neg hre] at hok
      cases hok

/-- C6 witness: one document indexed in all three stores, deleted, then
queried; the lone successful search shape carries no sources, and the
deleted document's file name is absent. -/
theorem claim_C6_delete_then_search_witness :
    RagInterface.search
        (envOfState
          (MultiIndexManager.delete_document stateWithDoc "doc-1"
            DeleteOutcomes.allOk).1
          relDemo 4 [kgSyntheticNode] (fun _ => [])
          (fun _ => "synthesized"))
        "What fertilizer ratio for tomatoes?"
      = .ok ⟨"synthesized", []⟩
    ∧ "tomatoes_fert_plan.txt"
        ∉ (RAGResponse.mk "synthesized" []).sources := by
  constructor
  · rfl
  · exact (claim_C6_delete_then_search stateWithDoc "doc-1"
      "tomatoes_fert_plan.txt" "What fertilizer ratio for tomatoes?"
      relDemo 4 [kgSyntheticNode] (fun _ => []) (fun _ => "synthesized")
      ⟨"synthesized", []⟩ rfl).2


/-- C7: the workflow is compiled with the literal `checkpointer=None`
(`graph.py:262`), so every graph `create_graph` returns carries no
checkpointer, and `get_chat_history` — which calls `graph.get_state` —
always raises `ValueError("No checkpointer set")` instead of reading back
persisted conversation state (or returning `[]` when none exists). -/
theorem claim_C7_history_unreachable (env : DeployEnv) (poolOk : Bool)
    (g : CompiledGraph)
    (h : LangGraphAgent.createGraph env poolOk = .ok g) :
    g.checkpointer = none
    ∧ ∀ (persisted : String → Option (List OaMessage)) (sid : String)
        (debug selfDebug : Bool) (env2 : DeployEnv),
        LangGraphAgent.getChatHistory g persisted sid debug selfDebug env2
          = .error "No checkpointer set" := by
  have hg : g = ⟨none⟩ := by
    unfold LangGraphAgent.createGraph at h
    by_cases hp : poolOk = true
    · rw [if_pos hp] at h
      injection h with h2
      exact h2.symm
    · rw [if_neg hp] at h
      by_cases he : (env == DeployEnv.production) = true
      · rw [if_pos he] at h
        injection h with h2
        exact h2.symm
      · rw [if_neg he] at h
        cases h
  subst hg
  exact ⟨rfl, fun _ _ _ _ _ => rfl⟩

/-- C7 witness: a successfully created graph in development mode with a
healthy connection pool still cannot serve chat history. -/
theorem claim_C7_history_unreachable_witness :
    LangGraphAgent.getChatHistory ⟨none⟩ (fun _ => none) "session-1" true
        true DeployEnv.development
      = .error "No checkpointer set" :=
  (claim_C7_history_unreachable DeployEnv.development true ⟨none⟩ rfl).2
    (fun _ => none) "session-1" true true DeployEnv.development

/-- C8: re-uploading a document whose user, file name and size match an
already-tracked row returns that row's descriptor unchanged: no file is
indexed (the RAG index-id list is untouched), no new row is created, and
the existing document's data is returned. -/
theorem claim_C8_upload_idempotent (st : UploadState) (uid : Nat)
    (fname : String) (size : Nat) (newIndexId ext : String) (doc : DbDoc)
    (h : get_uploaded_document st.db uid fname size = some doc) :
    upload_document st uid fname size newIndexId ext
      = (st, ⟨doc.id, doc.filename, doc.size, doc.extension, none⟩) := by
  unfold upload_document
  rw [h]

/-- C8 witness: a second upload of the tracked document changes nothing
and returns the stored descriptor. -/
theorem claim_C8_upload_idempotent_witness :
    upload_document ⟨[trackedDoc], 8, ["tomatoes_fert_plan_ab12cd34"]⟩ 1
        "tomatoes_fert_plan.txt" 2048 "tomatoes_fert_plan_ff00aa11" ".txt"
      = (⟨[trackedDoc], 8, ["tomatoes_fert_plan_ab12cd34"]⟩,
         ⟨7, "tomatoes_fert_plan.txt", 2048, ".txt", none⟩) :=
  claim_C8_upload_idempotent
    ⟨[trackedDoc], 8, ["tomatoes_fert_plan_ab12cd34"]⟩ 1
    "tomatoes_fert_plan.txt" 2048 "tomatoes_fert_plan_ff00aa11" ".txt"
    trackedDoc rfl

/-- C9: the knowledge-base tool's output is never empty: with an empty
source list it returns the answer annotated
`Not found in the knowledge base`, and otherwise the answer with the
comma-joined source names. -/
theorem claim_C9_tool_output_nonempty (resp : RAGResponse) :
    KnowledgeBaseTool.arun resp ≠ ""
    ∧ (resp.sources = [] →
        KnowledgeBaseTool.arun resp
          = "Answer: " ++ resp.answer
            ++ "\nSources: Not found in the knowledge base")
    ∧ (resp.sources ≠ [] →
        KnowledgeBaseTool.arun resp
          = "Answer: " ++ resp.answer ++ "\nSources: "
            ++ String.intercalate ", " resp.sources) := by
  refine ⟨?_, ?_, ?_⟩
  · unfold KnowledgeBaseTool.arun
    by_cases h : resp.sources.isEmpty = true
    · rw [if_pos h]
      intro hcon
      have hlen := congrArg String.length hcon
      simp only [String.length_append] at hlen
      have h8 : ("Answer: " : String).length = 8 := rfl
      have h0 : ("" : String).length = 0 := rfl
      rw [h8, h0] at hlen
      omega
    · rw [if_neg h]
      intro hcon
      have hlen := congrArg String.length hcon
      simp only [String.length_append] at hlen
      have h8 : ("Answer: " : String).length = 8 := rfl
      have h0 : ("" : String).length = 0 := rfl
      rw [h8, h0] at hlen
      omega
  · intro hs
    unfold KnowledgeBaseTool.arun
    rw [if_pos (by rw [hs]; rfl)]
  · intro hs
    unfold KnowledgeBaseTool.arun
    rw [if_neg (fun hc => hs (List.isEmpty_iff.mp hc))]

/-- C9 witness: the empty-sources shape of the tool output. -/
theorem claim_C9_tool_output_nonempty_witness :
    KnowledgeBaseTool.arun ⟨"No relevant information.", []⟩ ≠ ""
    ∧ KnowledgeBaseTool.arun ⟨"No relevant information.", []⟩
      = "Answer: No relevant information.\nSources: Not found in the knowledge base" := by
  refine ⟨(claim_C9_tool_output_nonempty ⟨"No relevant information.", []⟩).1,
    ?_⟩
  rw [(claim_C9_tool_output_nonempty
    ⟨"No relevant information.", []⟩).2.1 rfl]
  rfl

/-- C10: `RagInterface.delete_document` never propagates an exception: it
returns `true` with both stores cleaned when every underlying deletion and
persist succeeds, and `false` — keeping whatever deletions already
completed — when any of them raises. -/
theorem claim_C10_delete_never_raises (s : IndexState) (docId : String)
    (o : DeleteOutcomes) :
    (o.vectorDelete = .ok () → o.keywordDelete = .ok () →
      o.keywordPersist = .ok () →
      RagInterface.delete_document s docId o
        = (⟨s.vector.filter (fun n => n.refDocId != docId),
            s.keyword.filter (fun n => n.refDocId != docId), s.kg⟩, true))
    ∧ (∀ e, o.vectorDelete = .error e →
        RagInterface.delete_document s docId o = (s, false))
    ∧ (∀ e, o.vectorDelete = .ok () → o.keywordDelete = .error e →
        RagInterface.delete_document s docId o
          = (⟨s.vector.filter (fun n => n.refDocId != docId),
              s.keyword, s.kg⟩, false))
    ∧ (∀ e, o.vectorDelete = .ok () → o.keywordDelete = .ok () →
        o.keywordPersist = .error e →
        RagInterface.delete_document s docId o
          = (⟨s.vector.filter (fun n => n.refDocId != docId),
              s.keyword.filter (fun n => n.refDocId != docId), s.kg⟩,
            false)) := by
  refine ⟨?_, ?_, ?_, ?_⟩
  · intro h1 h2 h3
    unfold RagInterface.delete_document MultiIndexManager.delete_document
    rw [h1, h2, h3]
  · intro e h1
    unfold RagInterface.delete_document MultiIndexManager.delete_document
    rw [h1]
  · intro e h1 h2
    unfold RagInterface.delete_document MultiIndexManager.delete_document
    rw [h1, h2]
  · intro e h1 h2 h3
    unfold RagInterface.delete_document MultiIndexManager.delete_document
    rw [h1, h2, h3]

/-- C10 witness: the keyword store raising mid-way yields `false` with the
vector-store deletion left in place. -/
theorem claim_C10_delete_never_raises_witness :
    RagInterface.delete_document stateWithDoc "doc-1"
        ⟨.ok (), .error (PyErr.exn "keyword store down"), .ok ()⟩
      = (⟨[], [docNode], [docNode]⟩, false) := by
  have h := (claim_C10_delete_never_raises stateWithDoc "doc-1"
    ⟨.ok (), .error (PyErr.exn "keyword store down"), .ok ()⟩).2.2.1
    (PyErr.exn "keyword store down") rfl rfl
  rw [h]
  rfl

end MyPlants
